import Mathlib

/-!
# Verification of the VariantDispatcher specification

Shallow embedding of `src/05_unions_and_intersection_types/unions_and_intersection_types.ts`
and of the basic-types file (`reverse`), together with the VariantDispatcher
(`buildHandlerTable` / `dispatch`) described by the design document.

JavaScript numbers appearing in the snippets are modelled as `Int`, strings as
`String`, thrown `Error` objects as an `Except` error carrying a message.
-/

namespace TsSnippets

/-- A thrown JavaScript `Error`, reduced to its message. -/
structure JsError where
  message : String
  deriving DecidableEq, Repr

/-! ## Source: `padLeft1` (unions_and_intersection_types.ts, lines 8-16) -/

/-- The runtime values passed as the `padding : any` argument of `padLeft1`
in the snippet: a string, a (natural) number as used by the examples, a
boolean, or `undefined`. -/
inductive Padding
  | str (s : String)
  | num (n : Nat)
  | boolean (b : Bool)
  | undef
  deriving DecidableEq, Repr

/-- JavaScript `typeof` on a `Padding` value. -/
def Padding.typeofP : Padding → String
  | .str _ => "string"
  | .num _ => "number"
  | .boolean _ => "boolean"
  | .undef => "undefined"

/-- JavaScript string coercion of a `Padding` value, as used by the template
literal in the `throw` branch. -/
def Padding.coerceToString : Padding → String
  | .str s => s
  | .num n => toString n
  | .boolean b => if b then "true" else "false"
  | .undef => "undefined"

/-- `padLeft1(value, padding)`: `typeof padding === "number"` yields
`Array(padding + 1).join(" ") + value` (i.e. `padding` spaces, then `value`);
`typeof padding === "string"` yields `padding + value`; anything else throws
`Error` with message `Expected string or number, got '${padding}'.`. -/
def padLeft1 (value : String) (padding : Padding) : Except JsError String :=
  if padding.typeofP = "number" then
    match padding with
    | .num n => .ok (String.mk (List.replicate n ' ') ++ value)
    | _ => .error ⟨"unreachable"⟩
  else if padding.typeofP = "string" then
    match padding with
    | .str s => .ok (s ++ value)
    | _ => .error ⟨"unreachable"⟩
  else
    .error ⟨"Expected string or number, got '" ++ padding.coerceToString ++ "'."⟩

/-! ## Source: the discriminated-union example (NetworkState, logger) -/

/-- The `response` payload of `NetworkSuccessState` (and of
`NetworkFromCachedState`, which reuses `NetworkSuccessState["response"]`). -/
structure NetworkResponse where
  title : String
  duration : Int
  summary : String
  deriving DecidableEq, Repr

/-- `NetworkState = NetworkSuccessState | NetworkFailedState | NetworkLoadingState`. -/
inductive NetworkState
  | loading
  | success (response : NetworkResponse)
  | failed (code : Int)
  deriving DecidableEq, Repr

/-- `logger` (lines 115-137): a switch on `state.state` with the three cases
`"loading"`, `"failed"`, `"success"`. -/
def logger : NetworkState → String
  | .loading => "Downloading..."
  | .failed code => "Error " ++ toString code ++ " downloading"
  | .success r => "Downloaded " ++ r.title ++ " - " ++ r.summary

/-- `NetworkState2` adds `NetworkFromCachedState {state:"from_cache", id, response}`. -/
inductive NetworkState2
  | loading
  | failed (code : Int)
  | success (response : NetworkResponse)
  | fromCache (id : String) (response : NetworkResponse)
  deriving DecidableEq, Repr

/-- The discriminant (`state`) field of a `NetworkState2` value. -/
def NetworkState2.state : NetworkState2 → String
  | .loading => "loading"
  | .failed _ => "failed"
  | .success _ => "success"
  | .fromCache _ _ => "from_cache"

/-- The `code` field of a runtime `NetworkState2` value (present on the
`failed` shape; absent, modelled as 0, elsewhere). -/
def NetworkState2.code : NetworkState2 → Int
  | .failed c => c
  | _ => 0

/-- The declared tags of `NetworkState2`, in the order of `logger4`'s cases. -/
def networkState2Tags : List String :=
  ["loading", "failed", "success", "from_cache"]

/-- `logger2` (lines 160-169): the non-exhaustive switch; falls off the end
(returns `undefined`, modelled as `none`) on the `from_cache` shape. -/
def logger2 : NetworkState2 → Option String
  | .loading => some "loading request"
  | .failed c => some ("failed with code " ++ toString c)
  | .success _ => some "got response"
  | .fromCache _ _ => none

/-- `assertNever` (lines 192-194): always throws
`Error("Unexpected object: " + x)`; `x` is the JavaScript string coercion of
the offending value. -/
def assertNever (R : Type) (x : String) : Except JsError R :=
  .error ⟨"Unexpected object: " ++ x⟩

/-- `logger4` (lines 214-228) on well-typed input: the four cases of its
switch. The `default` branch is unreachable on `NetworkState2`. -/
def logger4 : NetworkState2 → String
  | .loading => "loading request"
  | .failed c => "failed with code " ++ toString c
  | .success _ => "got response"
  | .fromCache _ _ => "cashed"

/-- A raw runtime object reaching `logger4` when the closed-world assumption
is violated: a discriminant string plus the payload fields the switch reads. -/
structure RawState where
  state : String
  code : Int
  deriving DecidableEq, Repr

/-- JavaScript string coercion of a plain object, as produced by
`"Unexpected object: " + x`. -/
def RawState.coerceToString (_ : RawState) : String := "[object Object]"

/-- `logger4`'s switch run on a raw runtime value: the four tag cases, then
the `default` branch calling `assertNever`. -/
def logger4Run (s : RawState) : Except JsError String :=
  if s.state = "loading" then .ok "loading request"
  else if s.state = "failed" then .ok ("failed with code " ++ toString s.code)
  else if s.state = "success" then .ok "got response"
  else if s.state = "from_cache" then .ok "cashed"
  else assertNever String s.coerceToString

/-! ## Source: `reverse` (basic-types file, lines 258-261) -/

/-- `s.split("")`: the characters of `s`, each as a one-character string. -/
def splitChars (s : String) : List String :=
  s.data.map (fun c => String.mk [c])

/-- `.join("")`: concatenate a list of strings left to right. -/
def joinAll (l : List String) : String :=
  l.foldl (· ++ ·) ""

/-- `reverse(s) = s.split("").reverse().join("")`. -/
def reverse (s : String) : String :=
  joinAll (splitChars s).reverse

/-! ## The VariantDispatcher -/

/-- Modelled from the spec: a runtime Variant value — a record with a
discriminant field `kind` holding a tag, plus payload fields of type `P`
(`buildHandlerTable` and `dispatch` are described by the design document;
they do not appear in the source, which embodies dispatch as `switch`
statements). -/
structure Variant (P : Type) where
  kind : String
  payload : P

/-- Modelled from the spec: a handler table, mapping each tag of a VariantSet
to a function from the payload to the common result type `R`. -/
structure HandlerTable (P R : Type) where
  entries : List (String × (P → R))

/-- Modelled from the spec: the construction-time errors of
`buildHandlerTable`. -/
inductive BuildError
  | IncompleteCoverage (missing : List String)
  | DuplicateCoverage (dups : List String)
  deriving DecidableEq, Repr

/-- Modelled from the spec: the call-time error of `dispatch`, carrying the
offending tag for diagnostics. -/
inductive DispatchError
  | UnreachableVariant (kind : String)
  deriving DecidableEq, Repr

/-- The declared tags of the VariantSet that the supplied entry tags fail to
cover. -/
def missingTags (variantSet : List String) (tags : List String) : List String :=
  variantSet.filter (fun t => ! tags.contains t)

/-- The entry tags supplied more than once, each named once. -/
def duplicatedTags (tags : List String) : List String :=
  tags.dedup.filter (fun t => 1 < tags.count t)

/-- Modelled from the spec: `buildHandlerTable(variantSet, entries)` validates
that `entries` covers every tag in `variantSet` exactly once before returning;
it fails with `IncompleteCoverage` naming the missing tags, or with
`DuplicateCoverage` naming the tags supplied more than once. The returned
table maps each tag in the VariantSet to its handler. -/
def buildHandlerTable {P R : Type} (variantSet : List String)
    (entries : List (String × (P → R))) : Except BuildError (HandlerTable P R) :=
  if missingTags variantSet (entries.map Prod.fst) ≠ [] then
    .error (.IncompleteCoverage (missingTags variantSet (entries.map Prod.fst)))
  else if duplicatedTags (entries.map Prod.fst) ≠ [] then
    .error (.DuplicateCoverage (duplicatedTags (entries.map Prod.fst)))
  else .ok ⟨entries.filter (fun e => variantSet.contains e.1)⟩

/-- Modelled from the spec: `dispatch(value, handlerTable)` invokes the
handler whose tag equals `value.kind` on `value`'s payload; if no tag of the
table matches, it fails with `UnreachableVariant` carrying the offending tag. -/
def dispatch {P R : Type} (value : Variant P) (table : HandlerTable P R) :
    Except DispatchError R :=
  match table.entries.find? (fun e => e.1 == value.kind) with
  | some e => .ok (e.2 value.payload)
  | none => .error (.UnreachableVariant value.kind)

/-! ### The concrete scenario of the spec (§8, properties 5 and 6) -/

/-- The payload fields of the concrete scenario's variants. -/
inductive NetPayload
  | loadingP
  | successP (title : String) (duration : Int) (summary : String)
  | failedP (code : Int)
  deriving DecidableEq, Repr

/-- The `title` payload field. -/
def NetPayload.title : NetPayload → String
  | .successP t _ _ => t
  | _ => ""

/-- The `code` payload field. -/
def NetPayload.code : NetPayload → Int
  | .failedP c => c
  | _ => 0

/-- The VariantSet `{loading, success(title,duration,summary), failed(code)}`. -/
def netVariantSet : List String := ["loading", "success", "failed"]

/-- The three handlers of the concrete scenario. -/
def netHandlers : List (String × (NetPayload → String)) :=
  [("loading", fun _ => "Downloading..."),
   ("success", fun p => "Downloaded " ++ p.title),
   ("failed", fun p => "Error " ++ toString p.code)]

/-- The VariantSet extended with `from_cache` (spec §8, property 6). -/
def netVariantSet2 : List String := ["loading", "success", "failed", "from_cache"]

/-! ## Helper lemmas -/

theorem mem_missingTags {vs tags : List String} {t : String} :
    t ∈ missingTags vs tags ↔ t ∈ vs ∧ t ∉ tags := by
  simp [missingTags, List.elem_iff]

theorem missingTags_eq_nil_iff {vs tags : List String} :
    missingTags vs tags = [] ↔ ∀ t ∈ vs, t ∈ tags := by
  simp [missingTags, List.filter_eq_nil_iff, List.elem_iff]

theorem mem_duplicatedTags {tags : List String} {t : String} :
    t ∈ duplicatedTags tags ↔ 1 < tags.count t := by
  constructor
  · intro h
    unfold duplicatedTags at h
    have h' := List.mem_filter.mp h
    simpa using h'.2
  · intro h
    have hm : t ∈ tags := by
      have := Nat.lt_of_lt_of_le Nat.zero_lt_one (Nat.le_of_lt h)
      exact List.count_pos_iff.mp this
    simp [duplicatedTags, List.mem_dedup, hm, h]

theorem nodup_of_duplicatedTags_eq_nil {tags : List String}
    (h : duplicatedTags tags = []) : tags.Nodup := by
  rw [List.nodup_iff_count_le_one]
  intro a
  by_contra hc
  push_neg at hc
  have : a ∈ duplicatedTags tags := mem_duplicatedTags.mpr hc
  simp [h] at this

theorem buildHandlerTable_ok_facts {P R : Type} {vs : List String}
    {entries : List (String × (P → R))} {table : HandlerTable P R}
    (h : buildHandlerTable vs entries = .ok table) :
    (∀ t ∈ vs, t ∈ entries.map Prod.fst) ∧
    (entries.map Prod.fst).Nodup ∧
    table.entries = entries.filter (fun e => vs.contains e.1) := by
  unfold buildHandlerTable at h
  split at h
  · cases h
  · split at h
    · cases h
    · rename_i hm hd
      push_neg at hm hd
      refine ⟨missingTags_eq_nil_iff.mp hm, nodup_of_duplicatedTags_eq_nil hd, ?_⟩
      cases table
      injection h with h2
      injection h2 with h3
      exact h3.symm

theorem find?_key_eq {β : Type _} {l : List (String × β)} {k : String} {f : β}
    (hnd : (l.map Prod.fst).Nodup) (hmem : (k, f) ∈ l) :
    l.find? (fun e => e.1 == k) = some (k, f) := by
  induction l with
  | nil => cases hmem
  | cons a tl ih =>
    rcases List.mem_cons.mp hmem with heq | htl
    · rw [← heq]
      exact List.find?_cons_of_pos _ (by simp)
    · have hk : k ∈ tl.map Prod.fst := List.mem_map.mpr ⟨(k, f), htl, rfl⟩
      have hcons : a.1 ∉ tl.map Prod.fst ∧ (tl.map Prod.fst).Nodup :=
        List.nodup_cons.mp (by simpa using hnd)
      have hne : a.1 ≠ k := fun he => hcons.1 (he ▸ hk)
      rw [List.find?_cons_of_neg _ (by simp [hne])]
      exact ih hcons.2 htl

theorem length_filter_key_le_one {β : Type _} {l : List (String × β)} (k : String)
    (hnd : (l.map Prod.fst).Nodup) :
    (l.filter (fun e => e.1 == k)).length ≤ 1 := by
  have h1 : (l.filter (fun e => e.1 == k)).length = List.countP (fun e => e.1 == k) l :=
    (List.countP_eq_length_filter _ _).symm
  have h2 : List.countP (fun e => e.1 == k) l = List.count k (l.map Prod.fst) := by
    rw [List.count_eq_countP, List.countP_map]
    rfl
  rw [h1, h2]
  exact List.nodup_iff_count_le_one.mp hnd k

theorem length_filter_tag_le_one {l : List String} (k : String) (hnd : l.Nodup) :
    (l.filter (fun t => t == k)).length ≤ 1 := by
  have h1 : (l.filter (fun t => t == k)).length = List.countP (fun t => t == k) l :=
    (List.countP_eq_length_filter _ _).symm
  rw [h1, ← List.count_eq_countP]
  exact List.nodup_iff_count_le_one.mp hnd k

/-! ## Claim theorems -/

/-- C1: for every variant value whose tag is one of the declared tags of the
VariantSet, and a handler table covering exactly those tags, dispatch invokes
the handler whose tag equals the value's discriminant field and returns that
handler's result unchanged; in particular `logger` returns the loading-branch,
failed-branch and success-branch strings on the respective values. -/
theorem dispatch_routes_to_matching_handler (P R : Type) (vs : List String)
    (entries : List (String × (P → R))) (table : HandlerTable P R)
    (v : Variant P) (f : P → R) (c : Int) (r : NetworkResponse)
    (hbuild : buildHandlerTable vs entries = .ok table)
    (hkind : v.kind ∈ vs) (hmem : (v.kind, f) ∈ entries) :
    dispatch v table = .ok (f v.payload) ∧
    logger .loading = "Downloading..." ∧
    logger (.failed c) = "Error " ++ toString c ++ " downloading" ∧
    logger (.success r) = "Downloaded " ++ r.title ++ " - " ++ r.summary := by
  obtain ⟨hcov, hnd, htab⟩ := buildHandlerTable_ok_facts hbuild
  have hmemf : (v.kind, f) ∈ table.entries := by
    rw [htab]
    exact List.mem_filter.mpr ⟨hmem, List.elem_iff.mpr hkind⟩
  have hndf : (table.entries.map Prod.fst).Nodup := by
    rw [htab]
    exact List.Nodup.sublist ((List.filter_sublist entries).map _) hnd
  have hfind := find?_key_eq hndf hmemf
  refine ⟨?_, rfl, rfl, rfl⟩
  simp [dispatch, hfind]

/-- Witness for C1: the concrete scenario's table routes
`{kind:"failed", code:404}` to the failed handler. -/
theorem dispatch_routes_witness :
    buildHandlerTable netVariantSet netHandlers = .ok ⟨netHandlers⟩ ∧
    "failed" ∈ netVariantSet ∧
    dispatch (Variant.mk "failed" (NetPayload.failedP 404)) (HandlerTable.mk netHandlers) =
      .ok "Error 404" :=
  ⟨rfl, by decide,
    (dispatch_routes_to_matching_handler NetPayload String netVariantSet netHandlers
      ⟨netHandlers⟩ ⟨"failed", NetPayload.failedP 404⟩
      (fun p => "Error " ++ toString p.code) 0 ⟨"", 0, ""⟩
      rfl (by decide) (by simp [netHandlers])).1⟩

/-- C2: for every value whose discriminant matches none of the tags the
dispatcher was built for, dispatch fails with `UnreachableVariant` carrying
the offending tag; there is no silent fallback. -/
theorem dispatch_unknown_tag_unreachable (P R : Type) (vs : List String)
    (entries : List (String × (P → R))) (table : HandlerTable P R) (v : Variant P)
    (hbuild : buildHandlerTable vs entries = .ok table)
    (hkind : v.kind ∉ vs) :
    dispatch v table = .error (.UnreachableVariant v.kind) := by
  obtain ⟨-, -, htab⟩ := buildHandlerTable_ok_facts hbuild
  have hnone : table.entries.find? (fun e => e.1 == v.kind) = none := by
    rw [List.find?_eq_none]
    intro x hx
    rw [htab] at hx
    have hx' := List.mem_filter.mp hx
    have hx1 : x.1 ∈ vs := List.elem_iff.mp hx'.2
    simp only [beq_iff_eq]
    intro he
    exact hkind (he ▸ hx1)
  simp [dispatch, hnone]

/-- Witness for C2: dispatching a value with the unknown tag `bogus` through
the concrete scenario's table fails with `UnreachableVariant "bogus"`. -/
theorem dispatch_unknown_tag_witness :
    buildHandlerTable netVariantSet netHandlers = .ok ⟨netHandlers⟩ ∧
    "bogus" ∉ netVariantSet ∧
    dispatch (Variant.mk "bogus" NetPayload.loadingP) (HandlerTable.mk netHandlers) =
      .error (.UnreachableVariant "bogus") :=
  ⟨rfl, by decide,
    dispatch_unknown_tag_unreachable NetPayload String netVariantSet netHandlers
      ⟨netHandlers⟩ ⟨"bogus", NetPayload.loadingP⟩ rfl (by decide)⟩

/-- C4: in the concrete scenario with VariantSet
`{loading, success(title,duration,summary), failed(code)}` and the given
three handlers, dispatching `{kind:"failed", code:404}` returns exactly
`Error 404`. -/
theorem dispatch_failed_404 :
    buildHandlerTable netVariantSet netHandlers = .ok ⟨netHandlers⟩ ∧
    dispatch (Variant.mk "failed" (NetPayload.failedP 404)) (HandlerTable.mk netHandlers) =
      .ok "Error 404" :=
  ⟨rfl, rfl⟩

/-- C6: dispatch is a pure, deterministic routing operation: two runs on the
same inputs agree, and the result is either the invoked handler's result on
the value's payload or the `UnreachableVariant` error — nothing else. -/
theorem dispatch_pure_routing (P R : Type) (v : Variant P) (t : HandlerTable P R) :
    dispatch v t = dispatch v t ∧
    ((∃ f, (v.kind, f) ∈ t.entries ∧ dispatch v t = .ok (f v.payload)) ∨
      dispatch v t = .error (.UnreachableVariant v.kind)) := by
  refine ⟨rfl, ?_⟩
  cases hfind : t.entries.find? (fun e => e.1 == v.kind) with
  | none =>
    right
    simp [dispatch, hfind]
  | some e =>
    left
    have hmem := List.mem_of_find?_eq_some hfind
    have hpred := List.find?_some hfind
    have h1 : e.1 = v.kind := by simpa using hpred
    refine ⟨e.2, ?_, ?_⟩
    · show (v.kind, e.2) ∈ t.entries
      rw [← h1]
      exact hmem
    · simp [dispatch, hfind]

/-- C3: for every handler table that omits at least one tag declared in its
VariantSet, `buildHandlerTable` fails with `IncompleteCoverage` listing
exactly the missing tags; in particular, adding `from_cache` to the
VariantSet without updating the handler table fails with
`IncompleteCoverage(["from_cache"])` — the situation the non-exhaustive
`logger2` switch exhibits by returning `undefined` on a `from_cache` value. -/
theorem buildHandlerTable_incomplete_coverage (P R : Type) (vs : List String)
    (entries : List (String × (P → R))) (t0 : String) (i : String)
    (r : NetworkResponse)
    (h0 : t0 ∈ vs) (h0' : t0 ∉ entries.map Prod.fst) :
    (∃ m, buildHandlerTable vs entries = .error (.IncompleteCoverage m) ∧
      ∀ t, t ∈ m ↔ (t ∈ vs ∧ t ∉ entries.map Prod.fst)) ∧
    buildHandlerTable netVariantSet2 netHandlers =
      .error (.IncompleteCoverage ["from_cache"]) ∧
    logger2 (.fromCache i r) = none := by
  refine ⟨?_, rfl, rfl⟩
  have hne : missingTags vs (entries.map Prod.fst) ≠ [] := by
    intro hnil
    have hx : t0 ∈ missingTags vs (entries.map Prod.fst) :=
      mem_missingTags.mpr ⟨h0, h0'⟩
    rw [hnil] at hx
    cases hx
  refine ⟨missingTags vs (entries.map Prod.fst), ?_, fun t => mem_missingTags⟩
  unfold buildHandlerTable
  rw [if_pos hne]

/-- Witness for C3: the `from_cache` scenario. -/
theorem buildHandlerTable_incomplete_witness :
    "from_cache" ∈ netVariantSet2 ∧
    "from_cache" ∉ netHandlers.map Prod.fst ∧
    buildHandlerTable netVariantSet2 netHandlers =
      .error (.IncompleteCoverage ["from_cache"]) :=
  ⟨by decide, by decide,
    (buildHandlerTable_incomplete_coverage NetPayload String netVariantSet2 netHandlers
      "from_cache" "id" ⟨"", 0, ""⟩ (by decide) (by decide)).2.1⟩

/-- Counterexample to C5 as stated: an entry list that supplies `loading`
twice while omitting the declared tag `failed` fails with
`IncompleteCoverage`, not `DuplicateCoverage`, because the coverage check
runs first. -/
theorem buildHandlerTable_dup_cex :
    buildHandlerTable ["loading", "failed"]
      [("loading", fun _ : Unit => "a"), ("loading", fun _ : Unit => "b")] =
      .error (.IncompleteCoverage ["failed"]) ∧
    ¬ ∃ d, buildHandlerTable ["loading", "failed"]
      [("loading", fun _ : Unit => "a"), ("loading", fun _ : Unit => "b")] =
      .error (.DuplicateCoverage d) := by
  have h1 : buildHandlerTable ["loading", "failed"]
      [("loading", fun _ : Unit => "a"), ("loading", fun _ : Unit => "b")] =
      (.error (.IncompleteCoverage ["failed"]) : Except BuildError (HandlerTable Unit String)) :=
    rfl
  refine ⟨h1, ?_⟩
  rintro ⟨d, hd⟩
  rw [h1] at hd
  injection hd with h2
  cases h2

/-- C5 (amended): for every entry list that supplies some tag more than once
while omitting no declared tag, `buildHandlerTable` fails with
`DuplicateCoverage` naming exactly the tags supplied more than once, and does
not return a handler table. -/
theorem buildHandlerTable_duplicate_coverage (P R : Type) (vs : List String)
    (entries : List (String × (P → R))) (t0 : String)
    (hdup : 1 < (entries.map Prod.fst).count t0)
    (hcov : ∀ t ∈ vs, t ∈ entries.map Prod.fst) :
    buildHandlerTable vs entries =
      .error (.DuplicateCoverage (duplicatedTags (entries.map Prod.fst))) ∧
    (∀ t, t ∈ duplicatedTags (entries.map Prod.fst) ↔
      1 < (entries.map Prod.fst).count t) ∧
    (∀ table, buildHandlerTable vs entries ≠ .ok table) := by
  have hm : missingTags vs (entries.map Prod.fst) = [] := missingTags_eq_nil_iff.mpr hcov
  have hd : duplicatedTags (entries.map Prod.fst) ≠ [] := by
    intro hnil
    have hx : t0 ∈ duplicatedTags (entries.map Prod.fst) := mem_duplicatedTags.mpr hdup
    rw [hnil] at hx
    cases hx
  have heq : buildHandlerTable vs entries =
      .error (.DuplicateCoverage (duplicatedTags (entries.map Prod.fst))) := by
    unfold buildHandlerTable
    rw [if_neg (by simp [hm]), if_pos hd]
  refine ⟨heq, fun t => mem_duplicatedTags, ?_⟩
  intro table h
  rw [heq] at h
  cases h

/-- Witness for C5 (amended): supplying `loading` twice for the one-tag
VariantSet fails with `DuplicateCoverage(["loading"])`. -/
theorem buildHandlerTable_duplicate_witness :
    1 < (([("loading", fun _ : Unit => "a"),
      ("loading", fun _ : Unit => "b")]).map Prod.fst).count "loading" ∧
    buildHandlerTable ["loading"]
      [("loading", fun _ : Unit => "a"), ("loading", fun _ : Unit => "b")] =
      .error (.DuplicateCoverage ["loading"]) :=
  ⟨by decide,
    (buildHandlerTable_duplicate_coverage Unit String ["loading"]
      [("loading", fun _ : Unit => "a"), ("loading", fun _ : Unit => "b")]
      "loading" (by decide) (by decide)).1⟩

/-- C7: within one VariantSet the tags are pairwise distinct, so at most one
switch case of `logger4` matches any value's discriminant, and at most one
entry of any successfully built handler table matches any tag: dispatch never
faces two matching handlers. -/
theorem tags_unique_single_match (P R : Type) (vs : List String)
    (entries : List (String × (P → R))) (table : HandlerTable P R)
    (k : String) (s : NetworkState2)
    (hbuild : buildHandlerTable vs entries = .ok table) :
    networkState2Tags.Nodup ∧
    (networkState2Tags.filter (fun t => t == s.state)).length ≤ 1 ∧
    (table.entries.filter (fun e => e.1 == k)).length ≤ 1 := by
  have hnd : networkState2Tags.Nodup := by decide
  refine ⟨hnd, length_filter_tag_le_one _ hnd, ?_⟩
  obtain ⟨-, hnodup, htab⟩ := buildHandlerTable_ok_facts hbuild
  have hndf : (table.entries.map Prod.fst).Nodup := by
    rw [htab]
    exact List.Nodup.sublist ((List.filter_sublist entries).map _) hnodup
  exact length_filter_key_le_one k hndf

/-- Witness for C7: the concrete scenario's table has at most one entry for
the tag `failed`. -/
theorem tags_unique_witness :
    buildHandlerTable netVariantSet netHandlers = .ok ⟨netHandlers⟩ ∧
    networkState2Tags.Nodup ∧
    (networkState2Tags.filter (fun t => t == NetworkState2.loading.state)).length ≤ 1 ∧
    ((HandlerTable.mk netHandlers).entries.filter (fun e => e.1 == "failed")).length ≤ 1 :=
  ⟨rfl,
    tags_unique_single_match NetPayload String netVariantSet netHandlers
      ⟨netHandlers⟩ "failed" .loading rfl⟩

/-- C8: `assertNever` never returns normally — for every input it throws an
`Error` whose message is `Unexpected object: ` concatenated with the input's
string form — so the default branch of `logger4` always raises rather than
producing a string. -/
theorem assertNever_raises (R : Type) (x : String) (rr : R) (s : RawState)
    (hkind : s.state ∉ networkState2Tags) :
    assertNever R x ≠ .ok rr ∧
    assertNever R x = .error ⟨"Unexpected object: " ++ x⟩ ∧
    logger4Run s = .error ⟨"Unexpected object: " ++ s.coerceToString⟩ := by
  have h1 : s.state ≠ "loading" := by
    intro h
    exact hkind (by simp [networkState2Tags, h])
  have h2 : s.state ≠ "failed" := by
    intro h
    exact hkind (by simp [networkState2Tags, h])
  have h3 : s.state ≠ "success" := by
    intro h
    exact hkind (by simp [networkState2Tags, h])
  have h4 : s.state ≠ "from_cache" := by
    intro h
    exact hkind (by simp [networkState2Tags, h])
  refine ⟨by simp [assertNever], rfl, ?_⟩
  simp [logger4Run, h1, h2, h3, h4, assertNever]

/-- Witness for C8: on the unknown tag `bogus`, the runtime switch of
`logger4` raises via `assertNever`. -/
theorem assertNever_witness :
    (RawState.mk "bogus" 0).state ∉ networkState2Tags ∧
    (assertNever String "foo" ≠ .ok "bar" ∧
     assertNever String "foo" = .error ⟨"Unexpected object: foo"⟩ ∧
     logger4Run ⟨"bogus", 0⟩ = .error ⟨"Unexpected object: [object Object]"⟩) :=
  ⟨by decide, assertNever_raises String "foo" "bar" ⟨"bogus", 0⟩ (by decide)⟩

/-- C9: `padLeft1(value, n)` for a number `n` returns exactly `n` space
characters followed by `value`; for a padding that is neither a string nor a
number it throws an `Error`. -/
theorem padLeft1_pads_or_throws (value : String) (n : Nat) (p : Padding)
    (hs : p.typeofP ≠ "string") (hn : p.typeofP ≠ "number") :
    padLeft1 value (.num n) = .ok (String.mk (List.replicate n ' ') ++ value) ∧
    (String.mk (List.replicate n ' ')).length = n ∧
    (∀ c ∈ (String.mk (List.replicate n ' ')).data, c = ' ') ∧
    padLeft1 value p =
      .error ⟨"Expected string or number, got '" ++ p.coerceToString ++ "'."⟩ := by
  refine ⟨rfl, by simp [String.length], ?_, ?_⟩
  · intro c hc
    exact List.eq_of_mem_replicate hc
  · cases p with
    | str s => exact absurd rfl hs
    | num m => exact absurd rfl hn
    | boolean b => rfl
    | undef => rfl

/-- Witness for C9: `padLeft1("Hello World", 4)` yields four spaces then the
value, and a boolean padding throws. -/
theorem padLeft1_witness :
    Padding.typeofP (.boolean true) ≠ "string" ∧
    Padding.typeofP (.boolean true) ≠ "number" ∧
    padLeft1 "Hello World" (.num 4) = .ok "    Hello World" ∧
    padLeft1 "Hello World" (.boolean true) =
      .error ⟨"Expected string or number, got 'true'."⟩ :=
  ⟨by decide, by decide,
    (padLeft1_pads_or_throws "Hello World" 4 (.boolean true)
      (by decide) (by decide)).1,
    (padLeft1_pads_or_throws "Hello World" 4 (.boolean true)
      (by decide) (by decide)).2.2.2⟩

theorem data_foldl_singleton (l : List Char) (acc : String) :
    ((l.map (fun c => String.mk [c])).foldl (· ++ ·) acc).data = acc.data ++ l := by
  induction l generalizing acc with
  | nil => simp
  | cons c t ih =>
    show ((t.map (fun c => String.mk [c])).foldl (· ++ ·) (acc ++ ⟨[c]⟩)).data = _
    rw [ih]
    rw [String.data_append]
    simp

theorem reverse_eq_mk_reverse (s : String) : reverse s = String.mk s.data.reverse := by
  apply String.ext
  unfold reverse joinAll splitChars
  rw [← List.map_reverse]
  rw [data_foldl_singleton]
  rfl

/-- C10: `reverse` is an involution on strings and preserves length. -/
theorem reverse_involutive_length (s : String) :
    reverse (reverse s) = s ∧ (reverse s).length = s.length := by
  constructor
  · rw [reverse_eq_mk_reverse, reverse_eq_mk_reverse]
    show String.mk s.data.reverse.reverse = s
    rw [List.reverse_reverse]
  · rw [reverse_eq_mk_reverse]
    show s.data.reverse.length = s.data.length
    exact List.length_reverse _

end TsSnippets
